import Mathlib

/-!
Verification of the canvas/WebGL rendering framework of this repository
(`src/webgl/canvas.rs`, `src/webgl/compute.rs`, `src/webgl/mod.rs`).

The Rust code is shallowly embedded: the shared `CanvasRenderState`, the
per-frame animation closure of `Canvas::init_render_loop`, the prop-diff
logic of `Canvas::changed`, the `Uniform` wrapper, the `ComputeProgram`
operations and the index constants generated by the `uniform_set!` macro
become executable Lean definitions, and the specification's claims about
them are proved or refuted below.
-/

/-- The state of the rendering loop (`RenderLoopState` in `canvas.rs`). -/
inductive RenderLoopState where
  /-- Currently rendering each frame -/
  | Rendering
  /-- Not rendering -/
  | Paused
  /-- About to terminate the loop -/
  | Finished
deriving DecidableEq, Repr

/-- Data about the last mouse state (`MouseData` in `canvas.rs`). -/
structure MouseData where
  /-- Whether mouse button 1 is down -/
  primary_button : Bool := false
  /-- Whether mouse button 2 is down -/
  secondary_button : Bool := false
  /-- The mouse position relative to this canvas (`none` if not on the canvas) -/
  position : Option (Nat × Nat) := none
deriving DecidableEq, Repr

/-- Per-frame snapshot handed to a renderer (`RenderData` in `canvas.rs`). -/
structure RenderData where
  /-- Whether it is the initial render -/
  initial_render : Bool
  /-- The width of the canvas -/
  width : Nat
  /-- The height of the canvas -/
  height : Nat
  /-- If the canvas was resized before this frame -/
  resized : Bool
  /-- Whether any render input changed -/
  input_changed : Bool
  /-- Milliseconds since the beginning of rendering -/
  time : Nat
  /-- Milliseconds since the last frame -/
  delta_time : Nat
  /-- Info about the mouse -/
  mouse_data : MouseData
deriving DecidableEq, Repr

/-- Per-tick environment supplied by the host/DOM: the result of
`resize_to_display_size` (current canvas size and whether a resize happened)
together with the animation-frame timestamp passed to the closure. -/
structure TickEnv where
  width : Nat
  height : Nat
  resized : Bool
  time : Nat
deriving DecidableEq, Repr

/-- The behaviour of a `CanvasRenderer` implementation (the trait's two
methods).  `render` takes the state by mutable reference in Rust; here it
returns the updated state.  The GL handle is omitted: the loop logic never
inspects it, it is merely threaded through to the strategy. -/
structure RendererImpl (σ ι : Type) where
  initial_render_state : ι → RenderData → σ
  render : σ → ι → RenderData → σ

/-- The shared canvas state (`CanvasRenderState` in `canvas.rs`), guarded by
the `Arc<Mutex<..>>` in the Rust code. `R` is the renderer value type, `σ`
its `RenderState`, `ι` its `RenderInput`. -/
structure CanvasRenderState (R σ ι : Type) where
  /-- The renderer -/
  renderer : R
  /-- The render state -/
  render_state : Option σ
  /-- The render input -/
  render_input : ι
  /-- Whether the render input changed last frame -/
  render_input_changed : Bool
  /-- The render loop state -/
  render_loop_state : RenderLoopState
  /-- Mouse data -/
  mouse_data : MouseData
deriving DecidableEq

/-- Models `CanvasRenderState::new` in `canvas.rs`. -/
def CanvasRenderState.new {R σ ι : Type} (renderer : R) (canvas_render_input : ι)
    (render_loop_state : RenderLoopState) : CanvasRenderState R σ ι where
  renderer := renderer
  render_state := none
  render_input := canvas_render_input
  render_input_changed := false
  render_loop_state := render_loop_state
  mouse_data := {}

/-- One live instance of the self-rescheduling animation-frame closure made
by `Canvas::init_render_loop`: the shared state, the closure-captured
`last_time`, and whether the closure is still registered (`alive = false`
models `*cb.borrow_mut() = None`, after which the host never invokes this
instance again). -/
structure LoopInstance (R σ ι : Type) where
  st : CanvasRenderState R σ ι
  last_time : Nat
  alive : Bool
deriving DecidableEq

/-- The `RenderData` snapshot built at the top of the `Rendering` arm of the
tick closure.  `delta_time` is `time - last_time` (`u32` arithmetic in Rust;
animation-frame timestamps are monotone, so truncated subtraction agrees). -/
def mkRenderData {R σ ι : Type} (st : CanvasRenderState R σ ι) (last_time : Nat)
    (env : TickEnv) : RenderData where
  initial_render := st.render_state.isNone
  width := env.width
  height := env.height
  resized := env.resized
  input_changed := st.render_input_changed
  time := env.time
  delta_time := env.time - last_time
  mouse_data := st.mouse_data

/-- One invocation of the animation-frame closure body
(`canvas.rs`, `Canvas::init_render_loop`): matches on `render_loop_state`.
Returns the updated instance and, when the `Rendering` arm ran, the
`RenderData` snapshot it handed to the strategy (`none` means no draw
happened).  In the `Rendering` and `Paused` arms the closure reschedules
itself (`alive` stays `true`); in the `Finished` arm it drops itself
(`alive := false`) and returns without rescheduling. -/
def tickStep {R σ ι : Type} (impl : R → RendererImpl σ ι) (i : LoopInstance R σ ι)
    (env : TickEnv) : LoopInstance R σ ι × Option RenderData :=
  match i.st.render_loop_state with
  | RenderLoopState.Rendering =>
    let render_data := mkRenderData i.st i.last_time env
    -- `render_state.get_or_insert_with(|| renderer.initial_render_state(..))`
    let s0 := match i.st.render_state with
      | some s => s
      | none => (impl i.st.renderer).initial_render_state i.st.render_input render_data
    -- `renderer.render(render_state, canvas_render_input, &gl, render_data)`
    let s1 := (impl i.st.renderer).render s0 i.st.render_input render_data
    (⟨{ i.st with render_state := some s1, render_input_changed := false },
      env.time, true⟩, some render_data)
  | RenderLoopState.Finished => ({ i with alive := false }, none)
  | RenderLoopState.Paused => (i, none)

/-- Drive one loop instance through a sequence of animation frames.  A frame
only invokes the closure while it is registered; once `alive = false` the
dropped closure is never called again, so the remaining frames produce no
ticks.  Returns the final instance and the per-tick observations. -/
def runInstance {R σ ι : Type} (impl : R → RendererImpl σ ι) (i : LoopInstance R σ ι) :
    List TickEnv → LoopInstance R σ ι × List (Option RenderData)
  | [] => (i, [])
  | env :: rest =>
    if i.alive then
      let step := tickStep impl i env
      let tail := runInstance impl step.1 rest
      (tail.1, step.2 :: tail.2)
    else (i, [])

/-- The yew props of the canvas component (`CanvasProperties` in
`canvas.rs`): renderer value, render input, css width/height strings and the
desired render loop state.  The `canvas_node_ref` prop only wires up the DOM
node and plays no role in the behaviour modelled here. -/
structure CanvasProps (R ι : Type) where
  renderer : R
  render_input : ι
  width : String := "100%"
  height : String := "100%"
  render_loop_state : RenderLoopState := RenderLoopState.Rendering
deriving DecidableEq

/-- The mounted canvas component (`Canvas` in `canvas.rs`) together with the
props yew last delivered to it and the loop instance currently bound to its
shared state.  `initiate_render_loop` is the component field of the same
name; `rendered` consumes it by starting a fresh loop instance over the
same shared state. -/
structure CanvasComp (R σ ι : Type) where
  props : CanvasProps R ι
  inst : LoopInstance R σ ι
  initiate_render_loop : Bool
deriving DecidableEq

/-- Models `Canvas::create`: fresh shared state from the props; the render loop is
initiated on the first `rendered` unless the initial loop state is
`Finished` (the `matches!(.., Rendering | Paused)` check). -/
def Canvas.create {R σ ι : Type} (props : CanvasProps R ι) : CanvasComp R σ ι where
  props := props
  inst :=
    ⟨CanvasRenderState.new props.renderer props.render_input props.render_loop_state, 0, false⟩
  initiate_render_loop := props.render_loop_state ≠ RenderLoopState.Finished

/-- Models `Canvas::rendered`: if `initiate_render_loop` is set, call
`init_render_loop`, i.e. register a fresh closure instance over the shared
state, with a fresh captured `last_time = 0`. -/
def Canvas.rendered {R σ ι : Type} (c : CanvasComp R σ ι) : CanvasComp R σ ι :=
  if c.initiate_render_loop then
    { c with inst := ⟨c.inst.st, 0, true⟩, initiate_render_loop := false }
  else c

/-- Models `Canvas::changed` (`canvas.rs` lines 269-303): diff the old props
(`c.props`) against the new props field by field, mutating the shared state
through the mutex, and return the updated component together with the
boolean yew uses to decide whether to re-render. -/
def Canvas.changed {R σ ι : Type} [DecidableEq R] [DecidableEq ι]
    (c : CanvasComp R σ ι) (new_props : CanvasProps R ι) : CanvasComp R σ ι × Bool :=
  let old_props := c.props
  -- `if old_props.renderer != new_props.renderer { render_state = None; renderer = new }`
  let st1 :=
    if old_props.renderer = new_props.renderer then c.inst.st
    else { c.inst.st with render_state := none, renderer := new_props.renderer }
  -- `if old_props.render_input != new_props.render_input { input = new; changed = true }`
  let st2 :=
    if old_props.render_input = new_props.render_input then st1
    else { st1 with render_input := new_props.render_input, render_input_changed := true }
  -- `if old_props.render_loop_state != new_props.render_loop_state { .. }`
  let loopDiff := old_props.render_loop_state ≠ new_props.render_loop_state
  let st3 :=
    if loopDiff then { st2 with render_loop_state := new_props.render_loop_state } else st2
  let restart := loopDiff ∧ old_props.render_loop_state = RenderLoopState.Finished
  let changed :=
    (restart ∨ old_props.width ≠ new_props.width ∨ old_props.height ≠ new_props.height)
  ({ props := new_props,
     inst := { c.inst with st := st3 },
     initiate_render_loop := if restart then true else c.initiate_render_loop },
   decide changed)

/-- A props update as yew performs it: `changed`, followed by a re-render
(and hence `rendered`, which re-initiates the loop when requested) exactly
when `changed` returned `true`. -/
def Canvas.applyProps {R σ ι : Type} [DecidableEq R] [DecidableEq ι]
    (c : CanvasComp R σ ι) (new_props : CanvasProps R ι) : CanvasComp R σ ι :=
  let step := Canvas.changed c new_props
  if step.2 then Canvas.rendered step.1 else step.1

/-- Models `Canvas::create` followed by the first render's `rendered` call: the
state of a freshly mounted canvas. -/
def Canvas.mount {R σ ι : Type} (props : CanvasProps R ι) : CanvasComp R σ ι :=
  Canvas.rendered (Canvas.create props)

/-- External history of a mounted canvas: animation frames interleaved with
prop updates delivered by yew. -/
inductive CanvasEvent (R ι : Type) where
  | tick (env : TickEnv)
  | setProps (p : CanvasProps R ι)

/-- Run a mounted canvas through a sequence of events and collect, for every
tick in which the strategy's `render` actually ran, the `input_changed`
field of the `RenderData` snapshot it observed.  A `tick` event only invokes
the closure while one is registered. -/
def runObs {R σ ι : Type} [DecidableEq R] [DecidableEq ι] (impl : R → RendererImpl σ ι) :
    List (CanvasEvent R ι) → CanvasComp R σ ι → List Bool
  | [], _ => []
  | CanvasEvent.tick env :: rest, c =>
    if c.inst.alive then
      match tickStep impl c.inst env with
      | (i, some rd) => rd.input_changed :: runObs impl rest { c with inst := i }
      | (i, none) => runObs impl rest { c with inst := i }
    else runObs impl rest c
  | CanvasEvent.setProps p :: rest, c => runObs impl rest (Canvas.applyProps c p)

/-- All `setProps` events in the list carry render input `v` (the input is
not changed again over the course of the history). -/
def inputFixed {R ι : Type} (v : ι) : List (CanvasEvent R ι) → Prop
  | [] => True
  | CanvasEvent.tick _ :: rest => inputFixed v rest
  | CanvasEvent.setProps p :: rest => p.render_input = v ∧ inputFixed v rest

/-- Console diagnostics emitted through the `log` crate, structured by call
site so theorems can talk about which diagnostic was produced. -/
inductive LogEvent where
  /-- Models `log::error!("Expected valid uniform location\nGot: {name}\nOptions: {valid_locations}")` -/
  | errorMissingUniform (name : String) (valid_locations : String)
  /-- Models `log::warn!("Tried to set uniform without valid location: {name}")` -/
  | warnApplyNoLocation (name : String)
  /-- Models `log::error!("{log}")` for a shader-compile or program-link info log -/
  | errorShaderLog (log : String)
deriving DecidableEq, Repr

/-- Wrapper around a uniform location and data (`Uniform<Data>` in
`webgl/mod.rs`).  A GPU location handle is modelled as a `Nat`. -/
structure Uniform (Data : Type) where
  /-- The uniform name -/
  name : String
  /-- The uniform location handle for webgl (`None` if unresolved) -/
  location : Option Nat
  /-- The data that will be applied to the uniform -/
  data : Data
deriving DecidableEq

/-- The uniform-interface of a linked shader program as the GL context sees
it: the list of active uniform names, in the order `get_active_uniform`
enumerates them.  `get_uniform_location` succeeds exactly on these names
(modelled as the index into the list). -/
structure ProgramIface where
  active_uniforms : List String
deriving DecidableEq, Repr

/-- Models `gl.get_uniform_location(program, name)`: succeeds exactly on the
program's active uniform names, returning an opaque handle (modelled as the
name's position in the interface list). -/
def getUniformLocation (program : ProgramIface) (name : String) : Option Nat :=
  if name ∈ program.active_uniforms then some (program.active_uniforms.indexOf name)
  else none

/-- The `valid_locations` string built in `Uniform::new` by reducing the
active uniform names with `", "`, falling back to `"No options found"` for a
program with no active uniforms. -/
def validLocations (program : ProgramIface) : String :=
  match program.active_uniforms with
  | [] => "No options found"
  | n :: rest => rest.foldl (fun a b => a ++ ", " ++ b) n

/-- Models `Uniform::new` (`webgl/mod.rs` lines 30-55): look up the location; when
it is absent, emit the error diagnostic listing the program's valid uniform
names and construct the uniform with `location = None` anyway. -/
def Uniform.new {Data : Type} (program : ProgramIface) (name : String) (data : Data) :
    Uniform Data × List LogEvent :=
  let location := getUniformLocation program name
  let logs :=
    if location.isNone then [LogEvent.errorMissingUniform name (validLocations program)]
    else []
  (⟨name, location, data⟩, logs)

/-- Models `Uniform::set_data`: pure data mutation, no GL access (the function does
not even receive the GL handle). -/
def Uniform.set_data {Data : Type} (u : Uniform Data) (data : Data) : Uniform Data :=
  { u with data := data }

/-- The trace of GPU uniform writes performed by `UniformData::apply`
(`gl.uniform1f` and friends): the location written to.  The written bytes
are irrelevant to every claim, the trace records that and where a GPU write
happened. -/
structure GLWriteLog where
  writes : List Nat
deriving DecidableEq, Repr

/-- Models `Uniform::apply` (`webgl/mod.rs` lines 68-77): push the held data to the
GPU if the location is present; otherwise emit the warning diagnostic and do
nothing. -/
def Uniform.apply {Data : Type} (u : Uniform Data) (gl : GLWriteLog) :
    GLWriteLog × List LogEvent :=
  match u.location with
  | some location => ({ writes := gl.writes ++ [location] }, [])
  | none => (gl, [LogEvent.warnApplyNoLocation u.name])

/-- Result of a Rust call that may `panic!` (failed `assert_eq!`, out of
bounds `Vec` indexing, `Option::unwrap` on `None`). -/
inductive Outcome (α : Type) where
  | ok (value : α)
  | panicked
deriving DecidableEq, Repr

/-- One input texture of a `ComputeProgram`: the `(WebGlTexture, Uniform<(i32,)>)`
pair of the `inputs` vector.  The texture handle is a `Nat` id; the texel
contents (held GPU-side in reality) are carried alongside so that writes can
be stated. -/
structure InputTexture (α : Type) where
  texId : Nat
  contents : List α
  samplerUniform : Uniform Int
deriving DecidableEq

/-- Models `ComputeProgram` (`webgl/compute.rs`): dimensions, input textures,
output texture, the linked program, the output framebuffer, the quad vertex
buffer, the dimensions uniform and the user uniform set.  GPU object handles
are `Nat` ids; `α` is the texel scalar type (`f32` in Rust, kept abstract
since no claim depends on float semantics); the user uniform set is kept
abstract as a list of uniforms over `α` is not needed by any claim. -/
structure ComputeProgram (α : Type) where
  /-- The width of the textures -/
  width : Nat
  /-- The height of the textures -/
  height : Nat
  /-- The input textures -/
  inputs : List (InputTexture α)
  /-- The output texture handle and contents -/
  output_texture : Nat
  outputContents : List α
  /-- The linked program handle -/
  program : Nat
  /-- The output framebuffer handle -/
  frame_buffer : Nat
  /-- The vertex buffer handle -/
  vertex_buffer : Nat
  /-- The attribute location of `a_position` in the program -/
  positionLocation : Nat
deriving DecidableEq

/-- Models `ComputeProgram::write_input` (`webgl/compute.rs` lines 250-266):
`assert_eq!(data.len() as u32, width * height * 4)` first (a failed assert
panics before anything is touched), then `self.inputs[index]` (unchecked
`Vec` indexing, panics when out of bounds), then the texture's full contents
are replaced by `data` via `tex_image_2d`. -/
def ComputeProgram.write_input {α : Type} (p : ComputeProgram α) (index : Nat)
    (data : List α) : Outcome (ComputeProgram α) :=
  if data.length ≠ p.width * p.height * 4 then Outcome.panicked
  else
    match p.inputs.get? index with
    | none => Outcome.panicked
    | some input =>
      Outcome.ok { p with inputs := p.inputs.set index { input with contents := data } }

/-- Models `ComputeProgram::copy_output` applied to input `index` by
`ComputeProgram::copy_output_to_input` (`webgl/compute.rs` lines 298-320):
`&self.inputs[input_index].0` is unchecked `Vec` indexing (panics when out
of bounds); `copy_tex_image_2d` then copies the output texture's contents
into that input texture. -/
def ComputeProgram.copy_output_to_input {α : Type} (p : ComputeProgram α)
    (input_index : Nat) : Outcome (ComputeProgram α) :=
  match p.inputs.get? input_index with
  | none => Outcome.panicked
  | some input =>
    Outcome.ok
      { p with inputs := p.inputs.set input_index { input with contents := p.outputContents } }

/-- Models `ComputeProgram::input_texture` (`webgl/compute.rs` lines 343-345):
`&self.inputs[index].0`, unchecked `Vec` indexing. -/
def ComputeProgram.input_texture {α : Type} (p : ComputeProgram α) (index : Nat) :
    Outcome Nat :=
  match p.inputs.get? index with
  | none => Outcome.panicked
  | some input => Outcome.ok input.texId

/-- Models `GL::TEXTURE0` -/
def glTEXTURE0 : Nat := 33984

/-- Models `GL::TRIANGLES` -/
def glTRIANGLES : Nat := 4

/-- The WebGL binding state touched by `ComputeProgram::compute`: the
current program, `FRAMEBUFFER` binding, `ARRAY_BUFFER` binding, the active
texture unit, the `TEXTURE_2D` binding of every texture unit, the enabled
vertex attribute arrays, the viewport and the list of issued draw calls
(mode, first, count). -/
structure GLState where
  program : Option Nat
  framebuffer : Option Nat
  arrayBuffer : Option Nat
  activeTexture : Nat
  boundTexture : Nat → Option Nat
  attribEnabled : Nat → Bool
  viewport : Nat × Nat × Nat × Nat
  draws : List (Nat × Nat × Nat)

/-- Models `gl.use_program` -/
def GLState.useProgram (g : GLState) (p : Option Nat) : GLState := { g with program := p }

/-- Models `gl.bind_framebuffer(GL::FRAMEBUFFER, _)` -/
def GLState.bindFramebuffer (g : GLState) (f : Option Nat) : GLState :=
  { g with framebuffer := f }

/-- Models `gl.bind_buffer(GL::ARRAY_BUFFER, _)` -/
def GLState.bindBuffer (g : GLState) (b : Option Nat) : GLState := { g with arrayBuffer := b }

/-- Models `gl.active_texture` -/
def GLState.setActiveTexture (g : GLState) (unit : Nat) : GLState :=
  { g with activeTexture := unit }

/-- Models `gl.bind_texture(GL::TEXTURE_2D, _)`: binds on the currently active
texture unit only. -/
def GLState.bindTexture (g : GLState) (t : Option Nat) : GLState :=
  { g with boundTexture := fun u => if u = g.activeTexture then t else g.boundTexture u }

/-- Models `gl.enable_vertex_attrib_array` -/
def GLState.enableAttrib (g : GLState) (a : Nat) : GLState :=
  { g with attribEnabled := fun x => if x = a then true else g.attribEnabled x }

/-- Models `gl.disable_vertex_attrib_array` -/
def GLState.disableAttrib (g : GLState) (a : Nat) : GLState :=
  { g with attribEnabled := fun x => if x = a then false else g.attribEnabled x }

/-- Models `gl.viewport` -/
def GLState.setViewport (g : GLState) (x y w h : Nat) : GLState :=
  { g with viewport := (x, y, w, h) }

/-- Models `gl.draw_arrays(mode, first, count)` -/
def GLState.drawArrays (g : GLState) (mode first count : Nat) : GLState :=
  { g with draws := g.draws ++ [(mode, first, count)] }

/-- The `for (index, (texture, uniform)) in self.inputs.iter().enumerate()`
loop of `ComputeProgram::compute`: for each input, select texture unit
`TEXTURE0 + index`, bind the input texture there and apply its sampler
uniform (a `uniform1i` write, which does not alter any binding state). -/
def bindInputs {α : Type} (index : Nat) (inputs : List (InputTexture α)) (g : GLState) :
    GLState :=
  match inputs with
  | [] => g
  | input :: rest =>
    bindInputs (index + 1) rest
      ((g.setActiveTexture (glTEXTURE0 + index)).bindTexture (some input.texId))

/-- Models `ComputeProgram::compute` (`webgl/compute.rs` lines 269-296), call by
call.  `get_attrib_location` and `vertex_attrib_pointer_with_i32` configure
the attribute and touch no binding; the uniform applies
(`dimensions_uniform.apply`, `uniforms.apply_all` and the per-input sampler
applies inside `bindInputs`) are `uniform*` writes that alter no binding
state either. -/
def ComputeProgram.compute {α : Type} (p : ComputeProgram α) (g : GLState) : GLState :=
  let g := g.useProgram (some p.program)
  let g := g.bindFramebuffer (some p.frame_buffer)
  let g := bindInputs 0 p.inputs g
  let g := g.bindBuffer (some p.vertex_buffer)
  let g := g.enableAttrib p.positionLocation
  let g := g.setViewport 0 0 p.width p.height
  let g := g.drawArrays glTRIANGLES 0 6
  let g := g.disableAttrib p.positionLocation
  let g := g.bindBuffer none
  let g := g.bindTexture none
  let g := g.bindFramebuffer none
  g.useProgram none

/-- The `uniform_set!(@to_number id, ..)` helper (`webgl/compute.rs` lines
98-106): expands to `1 + 1 + .. + 0`, one `1` per already-counted
identifier. -/
def toNumber (counted : List String) : Nat :=
  match counted with
  | [] => 0
  | _ :: rest => 1 + toNumber rest

/-- The `uniform_set!(@count_constants counted.. | remaining..)` recursion
(`webgl/compute.rs` lines 90-97): each remaining declared entry, in
declaration order, receives the constant `@to_number` of the entries counted
so far, and is then appended to the counted list. -/
def countConstants (counted : List String) : List String → List (String × Nat)
  | [] => []
  | first :: rest => (first, toNumber counted) :: countConstants (counted ++ [first]) rest

/-- The integer index constants the `uniform_set!` macro generates for a
declared schema, in declaration order: `@count_constants` starting from an
empty counted list. -/
def uniformSetConstants (names : List String) : List (String × Nat) :=
  countConstants [] names

/-- How the GL context judges shader sources and program linking: which
sources compile (`COMPILE_STATUS`), their info logs on failure, whether the
link succeeds (`LINK_STATUS`) and the program info log on failure. -/
structure ShaderCtx where
  shaderOk : String → Bool
  shaderInfoLog : String → String
  linkOk : Bool
  programInfoLog : String

/-- Models `compile_shader` (`webgl/mod.rs` lines 146-167): compile, check
`COMPILE_STATUS`; on failure fetch the shader info log, `log::error!` it and
return `None`. -/
def compile_shader (ctx : ShaderCtx) (shader_type : Nat) (shader_source : String) :
    Option Nat × List LogEvent :=
  if ctx.shaderOk shader_source then (some shader_type, [])
  else (none, [LogEvent.errorShaderLog (ctx.shaderInfoLog shader_source)])

/-- Models `create_program` (`webgl/mod.rs` lines 170-193): attach, link, check
`LINK_STATUS`; on failure fetch the program info log, `log::error!` it and
return `None`. -/
def create_program (ctx : ShaderCtx) (vertex_shader fragment_shader : Nat) :
    Option Nat × List LogEvent :=
  if ctx.linkOk then (some (vertex_shader + fragment_shader), [])
  else (none, [LogEvent.errorShaderLog ctx.programInfoLog])

/-- Models `GL::VERTEX_SHADER` -/
def glVERTEX_SHADER : Nat := 35633

/-- Models `GL::FRAGMENT_SHADER` -/
def glFRAGMENT_SHADER : Nat := 35632

/-- Models `ComputeProgram::VERTEX_SOURCE` -/
def computeVertexSource : String :=
  "\x0a        attribute vec2 a_position;\x0a\x0a        void main() \x7b\x0a            gl_Position = vec4(a_position, 0.0, 1.0);\x0a        \x7d\x0a    "

/-- The shader-compilation part of `ComputeProgram::new` (`webgl/compute.rs`
lines 157-212): `compile_shader(..).unwrap()` for the constant vertex source
and for the caller's fragment source, then `create_program(..).unwrap()`.
Each `unwrap` of a `None` is a Rust `panic!`, which under wasm aborts the
running application; the model returns `Outcome.panicked` there, together
with every diagnostic logged up to that point.  On success the linked
program handle is returned (the subsequent texture, framebuffer, vertex
buffer and uniform setup cannot fail in a way any claim is about). -/
def computeProgramNew (ctx : ShaderCtx) (fragment_source : String) :
    Outcome Nat × List LogEvent :=
  match compile_shader ctx glVERTEX_SHADER computeVertexSource with
  | (none, logs) => (Outcome.panicked, logs)
  | (some vertex_shader, logsV) =>
    match compile_shader ctx glFRAGMENT_SHADER fragment_source with
    | (none, logsF) => (Outcome.panicked, logsV ++ logsF)
    | (some fragment_shader, logsF) =>
      match create_program ctx vertex_shader fragment_shader with
      | (none, logsP) => (Outcome.panicked, logsV ++ logsF ++ logsP)
      | (some program, logsP) => (Outcome.ok program, logsV ++ logsF ++ logsP)

/-! Concrete scenarios used to witness the theorems below: a counting dummy
renderer (as the specification's testable properties suggest), mounted
canvases, and small compute programs. -/

/-- A counting dummy renderer over renderer-value type `Bool`:
`initial_render_state` starts the counter at `100`, `render` increments it.
Distinct renderer values (`true`/`false`) share the behaviour; only their
identity differs, which is what `Canvas::changed` compares. -/
def boolCounterImpl : Bool → RendererImpl Nat Nat :=
  fun _ => ⟨fun _ _ => 100, fun s _ _ => s + 1⟩

/-- Default props for the scenario canvases: renderer value `true`, render
input `0`, loop state `Rendering`. -/
def exProps : CanvasProps Bool Nat :=
  { renderer := true, render_input := 0 }

/-- A loop instance sitting in `Paused`. -/
def pausedInst : LoopInstance Bool Nat Nat :=
  ⟨{ CanvasRenderState.new (σ := Nat) true 0 RenderLoopState.Paused with
      render_state := some 101 }, 16, true⟩

/-- A loop instance whose desired state has been set to `Finished` but whose
closure is still registered (the cancellation has not been observed yet). -/
def finishedInst : LoopInstance Bool Nat Nat :=
  ⟨{ CanvasRenderState.new (σ := Nat) true 0 RenderLoopState.Finished with
      render_state := some 101 }, 16, true⟩

/-- Scenario for claim C2: mount, run one frame (the state is built and
advanced to `101`), set the loop state to `Finished`, run one frame (the
closure observes `Finished` and drops itself). -/
def exFinishedComp : CanvasComp Bool Nat Nat :=
  let c0 := Canvas.mount (σ := Nat) exProps
  let c1 := { c0 with inst := (tickStep boolCounterImpl c0.inst ⟨8, 8, true, 16⟩).1 }
  let c2 := Canvas.applyProps c1 { exProps with render_loop_state := RenderLoopState.Finished }
  { c2 with inst := (tickStep boolCounterImpl c2.inst ⟨8, 8, false, 33⟩).1 }

/-- Scenario for claim C2, continued: the loop state is set back to
`Rendering`, which re-initiates the render loop. -/
def exRestartedComp : CanvasComp Bool Nat Nat :=
  Canvas.applyProps exFinishedComp { exProps with render_loop_state := RenderLoopState.Rendering }

/-- A freshly mounted canvas whose first frame has already run (state built,
counter at `101`, input-changed flag clear). -/
def exRunningComp : CanvasComp Bool Nat Nat :=
  let c0 := Canvas.mount (σ := Nat) exProps
  { c0 with inst := (tickStep boolCounterImpl c0.inst ⟨8, 8, true, 16⟩).1 }

/-- An example shader program interface declaring two uniforms. -/
def exIface : ProgramIface := ⟨["u_dimensions", "u_input_0"]⟩

/-- A GL context in which every shader source compiles except `"bad"`, and
linking succeeds. -/
def badShaderCtx : ShaderCtx where
  shaderOk := fun s => s != "bad"
  shaderInfoLog := fun _ => "ERROR: 0:1: syntax error"
  linkOk := true
  programInfoLog := ""

/-- A GL context in which every shader source compiles but linking fails. -/
def badLinkCtx : ShaderCtx where
  shaderOk := fun _ => true
  shaderInfoLog := fun _ => ""
  linkOk := false
  programInfoLog := "link failed"

/-- A 1×1 compute program with a single input texture. -/
def exCompute1 : ComputeProgram Int where
  width := 1
  height := 1
  inputs := [⟨7, [0, 0, 0, 0], ⟨"u_input_0", some 0, (0 : Int)⟩⟩]
  output_texture := 8
  outputContents := [1, 2, 3, 4]
  program := 1
  frame_buffer := 2
  vertex_buffer := 3
  positionLocation := 0

/-- A 2×2 compute program with two input textures (ids `10` and `11`). -/
def exCompute2 : ComputeProgram Int where
  width := 2
  height := 2
  inputs :=
    [⟨10, [], ⟨"u_input_0", some 0, (0 : Int)⟩⟩, ⟨11, [], ⟨"u_input_1", some 1, (1 : Int)⟩⟩]
  output_texture := 12
  outputContents := []
  program := 5
  frame_buffer := 6
  vertex_buffer := 7
  positionLocation := 0

/-- A pristine GL context: nothing bound, active unit `TEXTURE0`, no draws
issued. -/
def glInit : GLState where
  program := none
  framebuffer := none
  arrayBuffer := none
  activeTexture := glTEXTURE0
  boundTexture := fun _ => none
  attribEnabled := fun _ => false
  viewport := (0, 0, 0, 0)
  draws := []

/-- Two further animation frames, used as the event history after an input
change. -/
def exC3Events : List (CanvasEvent Bool Nat) :=
  [CanvasEvent.tick ⟨8, 8, false, 33⟩, CanvasEvent.tick ⟨8, 8, false, 50⟩]

/-! ## Theorems -/

/-- Reduction of the tick closure in the `Paused` arm. -/
theorem tickStep_paused {R σ ι : Type} (impl : R → RendererImpl σ ι)
    (i : LoopInstance R σ ι) (env : TickEnv)
    (h : i.st.render_loop_state = RenderLoopState.Paused) :
    tickStep impl i env = (i, none) := by
  unfold tickStep
  rw [h]

/-- Reduction of the tick closure in the `Finished` arm. -/
theorem tickStep_finished {R σ ι : Type} (impl : R → RendererImpl σ ι)
    (i : LoopInstance R σ ι) (env : TickEnv)
    (h : i.st.render_loop_state = RenderLoopState.Finished) :
    tickStep impl i env = ({ i with alive := false }, none) := by
  unfold tickStep
  rw [h]

/-- Reduction of the tick closure in the `Rendering` arm. -/
theorem tickStep_rendering {R σ ι : Type} (impl : R → RendererImpl σ ι)
    (i : LoopInstance R σ ι) (env : TickEnv)
    (h : i.st.render_loop_state = RenderLoopState.Rendering) :
    tickStep impl i env =
      (⟨{ i.st with
            render_state := some ((impl i.st.renderer).render
              (match i.st.render_state with
                | some s => s
                | none => (impl i.st.renderer).initial_render_state i.st.render_input
                    (mkRenderData i.st i.last_time env))
              i.st.render_input (mkRenderData i.st i.last_time env)),
            render_input_changed := false },
        env.time, true⟩, some (mkRenderData i.st i.last_time env)) := by
  unfold tickStep
  rw [h]

/-- Claim C1: a `Paused` tick performs no draw, leaves the whole shared
state (in particular `render_state`) and the captured `last_time` untouched,
and keeps the closure registered (`alive = true` still, so it reschedules);
a `Finished` tick performs no draw and no state change, deregisters the
closure, and no later animation frame of that loop instance ever runs a
tick: the run of the instance over any further frames is exactly the single
dead tick. -/
theorem c1_paused_reschedules_finished_terminal {R σ ι : Type}
    (impl : R → RendererImpl σ ι) (i : LoopInstance R σ ι) (env : TickEnv) :
    (i.st.render_loop_state = RenderLoopState.Paused → tickStep impl i env = (i, none)) ∧
    (i.st.render_loop_state = RenderLoopState.Finished → i.alive = true →
      ∀ envs : List TickEnv,
        runInstance impl i (env :: envs) = ({ i with alive := false }, [none])) := by
  refine ⟨tickStep_paused impl i env, fun h ha envs => ?_⟩
  cases envs with
  | nil => simp [runInstance, ha, tickStep_finished impl i env h]
  | cons e es => simp [runInstance, ha, tickStep_finished impl i env h]

/-- Witness for C1 at concrete instances: a paused instance is returned
unchanged with no draw, and an instance whose state has been set to
`Finished` runs exactly one dead tick no matter how many more frames the
host would deliver. -/
theorem c1_witness :
    (tickStep boolCounterImpl pausedInst ⟨8, 8, false, 33⟩ = (pausedInst, none)) ∧
    (runInstance boolCounterImpl finishedInst
        (⟨8, 8, false, 33⟩ :: [⟨8, 8, false, 50⟩, ⟨8, 8, false, 66⟩])
      = ({ finishedInst with alive := false }, [none])) :=
  ⟨(c1_paused_reschedules_finished_terminal boolCounterImpl pausedInst ⟨8, 8, false, 33⟩).1 rfl,
   (c1_paused_reschedules_finished_terminal boolCounterImpl finishedInst ⟨8, 8, false, 33⟩).2
     rfl rfl [⟨8, 8, false, 50⟩, ⟨8, 8, false, 66⟩]⟩

/-- Models `@to_number` counts one per identifier: it equals the list length. -/
theorem toNumber_eq_length (counted : List String) : toNumber counted = counted.length := by
  induction counted with
  | nil => rfl
  | cons a t ih => simp [toNumber, ih, Nat.add_comm]

/-- The names in the generated constant list are the declared names in
declaration order. -/
theorem countConstants_map_fst (counted : List String) (l : List String) :
    (countConstants counted l).map Prod.fst = l := by
  induction l generalizing counted with
  | nil => rfl
  | cons a t ih => simp [countConstants, ih]

/-- The values in the generated constant list are consecutive, starting at
the number of already-counted entries. -/
theorem countConstants_map_snd (counted : List String) (l : List String) :
    (countConstants counted l).map Prod.snd = List.range' counted.length l.length := by
  induction l generalizing counted with
  | nil => rfl
  | cons a t ih =>
    have h := ih (counted ++ [a])
    simp only [List.length_append, List.length_singleton] at h
    simp [countConstants, toNumber_eq_length, h, List.range'_succ]

/-- Claim C5: for a uniform-set schema of `N` declared entries, the
generated integer index constants, read off in declaration order, are
exactly `0, 1, ..., N-1`: the first declared entry gets `0`, the next `1`,
and so on, so the set of indices is `{0, ..., N-1}` with each index used
exactly once. -/
theorem c5_uniform_index_contiguity (names : List String) :
    (uniformSetConstants names).map Prod.fst = names ∧
    (uniformSetConstants names).map Prod.snd = List.range names.length := by
  refine ⟨countConstants_map_fst [] names, ?_⟩
  rw [uniformSetConstants, countConstants_map_snd, List.range_eq_range', List.length_nil]

/-- Claim C6: `write_input(index, data)` checks `data.len()` against
`width * height * 4` before anything else: a wrong-sized buffer makes the
call panic (the `assert_eq!` aborts the operation; nothing is truncated or
padded and the program value is untouched), and a correctly sized buffer
replaces the full contents of input texture `index`. -/
theorem c6_write_input_length_contract {α : Type} (p : ComputeProgram α) (index : Nat)
    (data : List α) :
    (data.length ≠ p.width * p.height * 4 →
      p.write_input index data = Outcome.panicked) ∧
    (data.length = p.width * p.height * 4 →
      ∀ h : index < p.inputs.length,
        p.write_input index data =
          Outcome.ok
            { p with
              inputs := p.inputs.set index
                { p.inputs.get ⟨index, h⟩ with contents := data } }) := by
  constructor
  · intro hne
    simp [ComputeProgram.write_input, hne]
  · intro he h
    simp [ComputeProgram.write_input, he, List.getElem?_eq_getElem h]

/-- Witness for C6 on the 1×1 single-input program: a buffer of length 1 is
rejected by the contract check, and a buffer of length `1*1*4 = 4` replaces
input texture 0's contents. -/
theorem c6_witness :
    (exCompute1.write_input 0 [(5 : Int)] = Outcome.panicked) ∧
    (exCompute1.write_input 0 [(5 : Int), 6, 7, 8] =
      Outcome.ok
        { exCompute1 with
          inputs := exCompute1.inputs.set 0
            { exCompute1.inputs.get ⟨0, by decide⟩ with
              contents := [(5 : Int), 6, 7, 8] } }) :=
  ⟨(c6_write_input_length_contract exCompute1 0 [(5 : Int)]).1 (by decide),
   (c6_write_input_length_contract exCompute1 0 [(5 : Int), 6, 7, 8]).2 (by decide) (by decide)⟩

/-- Claim C10: all three of `write_input`, `copy_output_to_input` and
`input_texture` index the `inputs` vector without a bounds check; for an
index at or past `input_count` each call panics (for `write_input`, the
wrong-length case already panics at the `assert_eq!`, and the right-length
case panics at the vector indexing). -/
theorem c10_index_out_of_bounds {α : Type} (p : ComputeProgram α) (index : Nat)
    (h : p.inputs.length ≤ index) :
    (∀ data : List α, p.write_input index data = Outcome.panicked) ∧
    p.copy_output_to_input index = Outcome.panicked ∧
    p.input_texture index = Outcome.panicked := by
  have hb : p.inputs[index]? = none := List.getElem?_eq_none h
  refine ⟨fun data => ?_, ?_, ?_⟩
  · by_cases hl : data.length = p.width * p.height * 4
    · simp [ComputeProgram.write_input, hl, hb]
    · simp [ComputeProgram.write_input, hl]
  · simp [ComputeProgram.copy_output_to_input, hb]
  · simp [ComputeProgram.input_texture, hb]

/-- Witness for C10 on the 1×1 single-input program at index 1 (one past the
single input). -/
theorem c10_witness :
    (exCompute1.write_input 1 [(5 : Int), 6, 7, 8] = Outcome.panicked) ∧
    exCompute1.copy_output_to_input 1 = Outcome.panicked ∧
    exCompute1.input_texture 1 = Outcome.panicked :=
  ⟨(c10_index_out_of_bounds exCompute1 1 (by decide)).1 [(5 : Int), 6, 7, 8],
   (c10_index_out_of_bounds exCompute1 1 (by decide)).2.1,
   (c10_index_out_of_bounds exCompute1 1 (by decide)).2.2⟩

/-- Claim C7: constructing a `Uniform` with a name the program does not
declare is non-fatal: the value is built with `location = none` after
emitting the diagnostic that lists the program's valid uniform names;
`set_value` still mutates the held value without any GPU access; and every
`apply` on such a uniform emits the warning diagnostic and leaves the GPU
write log untouched (a no-op that never fails and never performs a GPU
write). -/
theorem c7_missing_uniform_nonfatal {Data : Type} (program : ProgramIface)
    (name : String) (data0 : Data) (h : name ∉ program.active_uniforms) :
    (Uniform.new program name data0).1.location = none ∧
    (Uniform.new program name data0).2 =
      [LogEvent.errorMissingUniform name (validLocations program)] ∧
    (∀ d : Data, (Uniform.new program name data0).1.set_data d =
      ⟨name, none, d⟩) ∧
    (∀ d : Data, ∀ gl : GLWriteLog,
      ((Uniform.new program name data0).1.set_data d).apply gl =
        (gl, [LogEvent.warnApplyNoLocation name])) := by
  refine ⟨?_, ?_, fun d => ?_, fun d gl => ?_⟩ <;>
    simp [Uniform.new, getUniformLocation, h, Uniform.set_data, Uniform.apply]

/-- Witness for C7: the program declaring `u_dimensions` and `u_input_0`
does not declare `u_missing`; the uniform is built disabled with the
diagnostic listing both valid names, `set_value` still works, and `apply`
is a warned no-op. -/
theorem c7_witness :
    (Uniform.new exIface "u_missing" (0 : Int)).1.location = none ∧
    (Uniform.new exIface "u_missing" (0 : Int)).2 =
      [LogEvent.errorMissingUniform "u_missing" (validLocations exIface)] ∧
    (∀ d : Int, (Uniform.new exIface "u_missing" (0 : Int)).1.set_data d =
      ⟨"u_missing", none, d⟩) ∧
    (∀ d : Int, ∀ gl : GLWriteLog,
      ((Uniform.new exIface "u_missing" (0 : Int)).1.set_data d).apply gl =
        (gl, [LogEvent.warnApplyNoLocation "u_missing"])) :=
  c7_missing_uniform_nonfatal exIface "u_missing" (0 : Int) (by decide)

/-- Claim C8 is false as stated: with a fragment source that fails to
compile, `ComputeProgram::new` does emit the diagnostic carrying the
compiler's error log, but the construction then hits
`compile_shader(..).unwrap()` on `None` — a Rust `panic!`, which under wasm
aborts the whole application.  The failure is therefore not an isolated,
contained initialization failure of the offending renderer instantiation:
the constructor's outcome is `panicked`, not a recoverable error. -/
theorem c8_counterexample :
    computeProgramNew badShaderCtx "bad" =
      (Outcome.panicked, [LogEvent.errorShaderLog "ERROR: 0:1: syntax error"]) := by
  rfl

/-- Claim C8 (amended): when shader compilation of the fragment source, or
program linking, fails during `ComputeProgram` construction, a diagnostic
containing the underlying compiler/linker log is emitted and the
construction panics on the `unwrap` — so no frames are ever drawn with an
invalid program, but the failure is a panic that propagates out of the
constructor (aborting the wasm application) rather than an error isolated
to the offending canvas/strategy. -/
theorem c8_compile_or_link_failure_panics (ctx : ShaderCtx) (fragment_source : String)
    (hv : ctx.shaderOk computeVertexSource = true) :
    (ctx.shaderOk fragment_source = false →
      computeProgramNew ctx fragment_source =
        (Outcome.panicked, [LogEvent.errorShaderLog (ctx.shaderInfoLog fragment_source)])) ∧
    (ctx.shaderOk fragment_source = true → ctx.linkOk = false →
      computeProgramNew ctx fragment_source =
        (Outcome.panicked, [LogEvent.errorShaderLog ctx.programInfoLog])) := by
  constructor
  · intro hf
    simp [computeProgramNew, compile_shader, hv, hf]
  · intro hf hl
    simp [computeProgramNew, compile_shader, create_program, hv, hf, hl]

/-- Witness for the amended C8: the context rejecting the source `"bad"`
panics with the compile log, and the context that compiles everything but
fails to link panics with the link log. -/
theorem c8_witness :
    (computeProgramNew badShaderCtx "bad" =
      (Outcome.panicked, [LogEvent.errorShaderLog "ERROR: 0:1: syntax error"])) ∧
    (computeProgramNew badLinkCtx "void main() \x7b\x7d" =
      (Outcome.panicked, [LogEvent.errorShaderLog "link failed"])) :=
  ⟨(c8_compile_or_link_failure_panics badShaderCtx "bad" rfl).1 rfl,
   (c8_compile_or_link_failure_panics badLinkCtx "void main() \x7b\x7d" rfl).2 rfl rfl⟩

/-- The input-binding loop touches only the active-texture selector and the
per-unit texture bindings: program, framebuffer, array buffer, draw list,
attribute enables and viewport pass through unchanged. -/
theorem bindInputs_untouched {α : Type} (k : Nat) (ins : List (InputTexture α))
    (g : GLState) :
    (bindInputs k ins g).program = g.program ∧
    (bindInputs k ins g).framebuffer = g.framebuffer ∧
    (bindInputs k ins g).arrayBuffer = g.arrayBuffer ∧
    (bindInputs k ins g).draws = g.draws ∧
    (bindInputs k ins g).attribEnabled = g.attribEnabled ∧
    (bindInputs k ins g).viewport = g.viewport := by
  induction ins generalizing k g with
  | nil => exact ⟨rfl, rfl, rfl, rfl, rfl, rfl⟩
  | cons a t ih =>
    simpa [bindInputs, GLState.setActiveTexture, GLState.bindTexture] using
      ih (k + 1) ((g.setActiveTexture (glTEXTURE0 + k)).bindTexture (some a.texId))

/-- After the input-binding loop starting at unit offset `k`, the active
texture unit is the one selected for the last input. -/
theorem bindInputs_activeTexture {α : Type} (k : Nat) (ins : List (InputTexture α))
    (g : GLState) (h : ins ≠ []) :
    (bindInputs k ins g).activeTexture = glTEXTURE0 + k + (ins.length - 1) := by
  induction ins generalizing k g with
  | nil => exact absurd rfl h
  | cons a t ih =>
    cases t with
    | nil => simp [bindInputs, GLState.setActiveTexture, GLState.bindTexture]
    | cons b t2 =>
      rw [bindInputs, ih (k + 1) _ (by simp)]
      simp [List.length_cons]
      omega

/-- The input-binding loop starting at unit offset `k` leaves the bindings
of all units below `TEXTURE0 + k` untouched. -/
theorem bindInputs_boundTexture_low {α : Type} (k : Nat) (ins : List (InputTexture α))
    (g : GLState) (u : Nat) (hu : u < glTEXTURE0 + k) :
    (bindInputs k ins g).boundTexture u = g.boundTexture u := by
  induction ins generalizing k g with
  | nil => rfl
  | cons a t ih =>
    rw [bindInputs, ih (k + 1) _ (by omega)]
    have hne : u ≠ glTEXTURE0 + k := by omega
    simp [GLState.bindTexture, GLState.setActiveTexture, hne]

/-- After the input-binding loop starting at unit offset `k`, unit
`TEXTURE0 + k + j` holds input texture `j`. -/
theorem bindInputs_boundTexture_get {α : Type} (k : Nat) (ins : List (InputTexture α))
    (g : GLState) (j : Nat) (hj : j < ins.length) :
    (bindInputs k ins g).boundTexture (glTEXTURE0 + k + j) =
      some (ins.get ⟨j, hj⟩).texId := by
  induction ins generalizing k g j with
  | nil => simp at hj
  | cons a t ih =>
    cases j with
    | zero =>
      rw [bindInputs, bindInputs_boundTexture_low (k + 1) t _ _ (by omega)]
      simp [GLState.bindTexture, GLState.setActiveTexture]
    | succ m =>
      rw [bindInputs]
      have hm : m < t.length := by simpa using hj
      have step := ih (k + 1)
        ((g.setActiveTexture (glTEXTURE0 + k)).bindTexture (some a.texId)) m hm
      rw [show glTEXTURE0 + k + (m + 1) = glTEXTURE0 + (k + 1) + m by omega]
      simpa using step

/-- After `compute`, the binding of a texture unit is: cleared on the unit
that was active at the final `bind_texture(TEXTURE_2D, None)` (the unit of
the last input, or the previously active unit when there are no inputs),
and otherwise whatever the input-binding loop left there. -/
theorem compute_boundTexture {α : Type} (p : ComputeProgram α) (g : GLState) (u : Nat) :
    (p.compute g).boundTexture u =
      if u = (bindInputs 0 p.inputs (((g.useProgram (some p.program)).bindFramebuffer
          (some p.frame_buffer)))).activeTexture then none
      else (bindInputs 0 p.inputs ((g.useProgram (some p.program)).bindFramebuffer
          (some p.frame_buffer))).boundTexture u := by
  rfl

/-- Claim C9 is false as stated: on the two-input program, `compute` run on
a pristine GL context establishes texture bindings on units `TEXTURE0` and
`TEXTURE0+1`, but only the binding of the last-used unit is cleared before
returning — the binding of unit `TEXTURE0` (input texture `10`) survives
past the call. -/
theorem c9_counterexample :
    glInit.boundTexture glTEXTURE0 = none ∧
    (exCompute2.compute glInit).boundTexture glTEXTURE0 = some 10 := by
  exact ⟨rfl, by decide⟩

/-- Claim C9 (amended): every call to `compute()` issues exactly one draw of
6 vertices (`TRIANGLES`, first `0`, count `6`), and afterwards the program,
framebuffer and array-buffer bindings are cleared; but of the texture
bindings made for the input textures only the one on the currently active
unit — the unit of the last input (or for zero inputs, whatever unit was
active on entry) — is cleared: for programs with two or more inputs the
binding of every earlier unit `TEXTURE0 + j` (`j + 1 < input_count`) still
holds input texture `j` after the call. -/
theorem c9_compute_one_draw_partial_cleanup {α : Type} (p : ComputeProgram α)
    (g : GLState) :
    (p.compute g).draws = g.draws ++ [(glTRIANGLES, 0, 6)] ∧
    (p.compute g).program = none ∧
    (p.compute g).framebuffer = none ∧
    (p.compute g).arrayBuffer = none ∧
    (p.inputs = [] → (p.compute g).boundTexture g.activeTexture = none) ∧
    (p.inputs ≠ [] →
      (p.compute g).boundTexture (glTEXTURE0 + (p.inputs.length - 1)) = none) ∧
    (∀ j : Nat, ∀ hj : j + 1 < p.inputs.length,
      (p.compute g).boundTexture (glTEXTURE0 + j) =
        some (p.inputs.get ⟨j, by omega⟩).texId) := by
  set g1 : GLState :=
    (g.useProgram (some p.program)).bindFramebuffer (some p.frame_buffer) with hg1
  refine ⟨?_, rfl, rfl, rfl, ?_, ?_, ?_⟩
  · show (bindInputs 0 p.inputs g1).draws ++ [(glTRIANGLES, 0, 6)] = _
    rw [(bindInputs_untouched 0 p.inputs g1).2.2.2.1]
    rfl
  · intro he
    rw [compute_boundTexture, ← hg1]
    have hact : g1.activeTexture = g.activeTexture := rfl
    simp [he, bindInputs, hact]
  · intro hne
    rw [compute_boundTexture, ← hg1,
      bindInputs_activeTexture 0 p.inputs g1 hne]
    simp
  · intro j hj
    rw [compute_boundTexture, ← hg1,
      bindInputs_activeTexture 0 p.inputs g1 (by intro he; rw [he] at hj; simp at hj)]
    have hne : glTEXTURE0 + j ≠ glTEXTURE0 + 0 + (p.inputs.length - 1) := by omega
    rw [if_neg hne]
    have := bindInputs_boundTexture_get 0 p.inputs g1 j (by omega)
    simpa using this

/-- Witness for the amended C9 on the two-input program and a pristine
context: exactly one `TRIANGLES 0 6` draw is recorded, the binding of the
last input's unit (`TEXTURE0 + 1`) is cleared, and the binding of unit
`TEXTURE0 + 0` still holds input texture 0 after the call. -/
theorem c9_witness :
    ((exCompute2.compute glInit).draws = glInit.draws ++ [(glTRIANGLES, 0, 6)]) ∧
    ((exCompute2.compute glInit).boundTexture
      (glTEXTURE0 + (exCompute2.inputs.length - 1)) = none) ∧
    ((exCompute2.compute glInit).boundTexture (glTEXTURE0 + 0) =
      some (exCompute2.inputs.get ⟨0, by decide⟩).texId) :=
  ⟨(c9_compute_one_draw_partial_cleanup exCompute2 glInit).1,
   (c9_compute_one_draw_partial_cleanup exCompute2 glInit).2.2.2.2.2.1 (by decide),
   (c9_compute_one_draw_partial_cleanup exCompute2 glInit).2.2.2.2.2.2 0 (by decide)⟩

/-- After a props update the component's stored props are the new props
(`Canvas::changed` runs against `ctx.props()`, and `rendered` does not touch
them). -/
theorem rendered_props {R σ ι : Type} (c : CanvasComp R σ ι) :
    (Canvas.rendered c).props = c.props := by
  unfold Canvas.rendered
  split <;> rfl

/-- Models `rendered` re-registers the loop but never touches the shared state. -/
theorem rendered_inst_st {R σ ι : Type} (c : CanvasComp R σ ι) :
    (Canvas.rendered c).inst.st = c.inst.st := by
  unfold Canvas.rendered
  split <;> rfl

theorem applyProps_props {R σ ι : Type} [DecidableEq R] [DecidableEq ι]
    (c : CanvasComp R σ ι) (p : CanvasProps R ι) :
    (Canvas.applyProps c p).props = p := by
  unfold Canvas.applyProps
  by_cases h : (Canvas.changed c p).2 <;> simp [h, rendered_props] <;> rfl

/-- Models `rendered` re-registers the loop but never touches the shared state, so
the state after a props update is the state `changed` computed. -/
theorem applyProps_inst_st {R σ ι : Type} [DecidableEq R] [DecidableEq ι]
    (c : CanvasComp R σ ι) (p : CanvasProps R ι) :
    (Canvas.applyProps c p).inst.st = (Canvas.changed c p).1.inst.st := by
  unfold Canvas.applyProps
  by_cases h : (Canvas.changed c p).2 <;> simp [h, rendered_inst_st]

/-- The shared state after `Canvas::changed`, written out as the three
prop-diff updates the Rust function performs in order. -/
theorem changed_inst_st {R σ ι : Type} [DecidableEq R] [DecidableEq ι]
    (c : CanvasComp R σ ι) (p : CanvasProps R ι) :
    (Canvas.changed c p).1.inst.st =
      (let st1 := if c.props.renderer = p.renderer then c.inst.st
        else { c.inst.st with render_state := none, renderer := p.renderer };
       let st2 := if c.props.render_input = p.render_input then st1
        else { st1 with render_input := p.render_input, render_input_changed := true };
       if c.props.render_loop_state ≠ p.render_loop_state then
        { st2 with render_loop_state := p.render_loop_state } else st2) := rfl

/-- Claim C2 is false as stated: run the counting renderer for one frame
(state built and advanced to `101`), set the loop state to `Finished` and
let the closure die, then set it back to `Rendering`.  The loop is indeed
re-initiated (`alive = true` again), but the retained `render_state` of
`some 101` is reused: the first tick of the restarted loop observes
`initial_render = false` and continues the old state to `102` —
`initial_render_state` is not called again and the state is not rebuilt. -/
theorem c2_counterexample :
    exFinishedComp.inst.alive = false ∧
    exFinishedComp.inst.st.render_state = some 101 ∧
    exRestartedComp.inst.alive = true ∧
    (tickStep boolCounterImpl exRestartedComp.inst ⟨8, 8, false, 50⟩).2.map
        RenderData.initial_render = some false ∧
    (tickStep boolCounterImpl exRestartedComp.inst ⟨8, 8, false, 50⟩).1.st.render_state =
      some 102 := by
  refine ⟨rfl, rfl, rfl, rfl, rfl⟩

/-- Claim C2 (amended): if the loop state reaches `Finished` and the props
later set it back to `Rendering`, the scheduling loop is re-initiated (a
fresh closure with `alive = true` and a fresh `last_time = 0`), but the
shared `render_state` is retained, not discarded: the first tick of the
restarted loop observes `initial_render = render_state.is_none()` — `true`
only if no state had ever been built (or the renderer was swapped) — and a
previously built state is reused by `render`, with `initial_render_state`
not called again. -/
theorem c2_finished_restart_reuses_state {R σ ι : Type} [DecidableEq R] [DecidableEq ι]
    (impl : R → RendererImpl σ ι) (c : CanvasComp R σ ι) (p : CanvasProps R ι)
    (hOld : c.props.render_loop_state = RenderLoopState.Finished)
    (hNew : p.render_loop_state = RenderLoopState.Rendering)
    (hr : p.renderer = c.props.renderer) (hi : p.render_input = c.props.render_input) :
    (Canvas.applyProps c p).inst.alive = true ∧
    (Canvas.applyProps c p).inst.last_time = 0 ∧
    (Canvas.applyProps c p).inst.st =
      { c.inst.st with render_loop_state := RenderLoopState.Rendering } ∧
    ∀ env : TickEnv,
      (tickStep impl (Canvas.applyProps c p).inst env).2.map RenderData.initial_render =
        some c.inst.st.render_state.isNone ∧
      ∀ s : σ, c.inst.st.render_state = some s →
        (tickStep impl (Canvas.applyProps c p).inst env).1.st.render_state =
          some ((impl c.inst.st.renderer).render s c.inst.st.render_input
            (mkRenderData { c.inst.st with render_loop_state := RenderLoopState.Rendering }
              0 env)) := by
  have hinst : (Canvas.applyProps c p).inst =
      ⟨{ c.inst.st with render_loop_state := RenderLoopState.Rendering }, 0, true⟩ := by
    simp [Canvas.applyProps, Canvas.changed, Canvas.rendered, hOld, hNew, hr, hi]
  refine ⟨by rw [hinst], by rw [hinst], by rw [hinst], fun env => ?_⟩
  rw [hinst, tickStep_rendering impl _ env rfl]
  refine ⟨by simp [mkRenderData], fun s hs => ?_⟩
  simp [hs, mkRenderData]

/-- Witness for the amended C2 on the concrete finished-then-restarted
scenario: the loop is re-initiated with a fresh closure, the state is
retained, the first restarted tick observes `initial_render = false`
(`render_state` was `some 101`), and `render` continues the reused state. -/
theorem c2_witness :
    (Canvas.applyProps exFinishedComp
      { exProps with render_loop_state := RenderLoopState.Rendering }).inst.alive = true ∧
    (Canvas.applyProps exFinishedComp
      { exProps with render_loop_state := RenderLoopState.Rendering }).inst.last_time = 0 ∧
    (Canvas.applyProps exFinishedComp
        { exProps with render_loop_state := RenderLoopState.Rendering }).inst.st =
      { exFinishedComp.inst.st with render_loop_state := RenderLoopState.Rendering } ∧
    (tickStep boolCounterImpl
        (Canvas.applyProps exFinishedComp
          { exProps with render_loop_state := RenderLoopState.Rendering }).inst
        ⟨8, 8, false, 50⟩).2.map RenderData.initial_render =
      some exFinishedComp.inst.st.render_state.isNone ∧
    (tickStep boolCounterImpl
        (Canvas.applyProps exFinishedComp
          { exProps with render_loop_state := RenderLoopState.Rendering }).inst
        ⟨8, 8, false, 50⟩).1.st.render_state =
      some ((boolCounterImpl exFinishedComp.inst.st.renderer).render 101
        exFinishedComp.inst.st.render_input
        (mkRenderData
          { exFinishedComp.inst.st with render_loop_state := RenderLoopState.Rendering }
          0 ⟨8, 8, false, 50⟩)) :=
  ⟨(c2_finished_restart_reuses_state boolCounterImpl exFinishedComp
      { exProps with render_loop_state := RenderLoopState.Rendering } rfl rfl rfl rfl).1,
   (c2_finished_restart_reuses_state boolCounterImpl exFinishedComp
      { exProps with render_loop_state := RenderLoopState.Rendering } rfl rfl rfl rfl).2.1,
   (c2_finished_restart_reuses_state boolCounterImpl exFinishedComp
      { exProps with render_loop_state := RenderLoopState.Rendering } rfl rfl rfl rfl).2.2.1,
   ((c2_finished_restart_reuses_state boolCounterImpl exFinishedComp
      { exProps with render_loop_state := RenderLoopState.Rendering } rfl rfl rfl rfl).2.2.2
      ⟨8, 8, false, 50⟩).1,
   ((c2_finished_restart_reuses_state boolCounterImpl exFinishedComp
      { exProps with render_loop_state := RenderLoopState.Rendering } rfl rfl rfl rfl).2.2.2
      ⟨8, 8, false, 50⟩).2 101 rfl⟩

/-- A tick that produced no draw left the shared state untouched. -/
theorem tickStep_none_same_st {R σ ι : Type} (impl : R → RendererImpl σ ι)
    (i : LoopInstance R σ ι) (env : TickEnv)
    (h : (tickStep impl i env).2 = none) : (tickStep impl i env).1.st = i.st := by
  rcases hl : i.st.render_loop_state with _ | _ | _
  · rw [tickStep_rendering impl i env hl] at h
    simp at h
  · rw [tickStep_paused impl i env hl]
  · rw [tickStep_finished impl i env hl]

/-- A tick that drew observed the current input-changed flag in its snapshot
and cleared the flag afterwards. -/
theorem tickStep_some_flag {R σ ι : Type} (impl : R → RendererImpl σ ι)
    (i : LoopInstance R σ ι) (env : TickEnv) (rd : RenderData)
    (h : (tickStep impl i env).2 = some rd) :
    rd.input_changed = i.st.render_input_changed ∧
    (tickStep impl i env).1.st.render_input_changed = false := by
  rcases hl : i.st.render_loop_state with _ | _ | _
  · rw [tickStep_rendering impl i env hl] at h ⊢
    have hrd : rd = mkRenderData i.st i.last_time env := by simpa using h.symm
    subst hrd
    exact ⟨rfl, rfl⟩
  · rw [tickStep_paused impl i env hl] at h
    simp at h
  · rw [tickStep_finished impl i env hl] at h
    simp at h

/-- With the input-changed flag clear and no further input change in the
event history, every rendering tick observes `input_changed = false`. -/
theorem runObs_all_false {R σ ι : Type} [DecidableEq R] [DecidableEq ι]
    (impl : R → RendererImpl σ ι) (v : ι) (evs : List (CanvasEvent R ι)) :
    ∀ c : CanvasComp R σ ι, c.props.render_input = v →
      c.inst.st.render_input_changed = false → inputFixed v evs →
      ∀ b ∈ runObs impl evs c, b = false := by
  induction evs with
  | nil =>
    intro c _ _ _ b hb
    simp [runObs] at hb
  | cons e rest ih =>
    intro c hv hflag hfix b hb
    cases e with
    | tick env =>
      by_cases ha : c.inst.alive
      · rcases hobs : tickStep impl c.inst env with ⟨i, obs⟩
        cases obs with
        | some rd =>
          have hred : runObs impl (CanvasEvent.tick env :: rest) c =
              rd.input_changed :: runObs impl rest { c with inst := i } := by
            simp [runObs, ha, hobs]
          rw [hred] at hb
          have hstep := tickStep_some_flag impl c.inst env rd (by rw [hobs])
          rw [hobs] at hstep
          rcases List.mem_cons.mp hb with hb1 | hb2
          · rw [hb1, hstep.1, hflag]
          · exact ih { c with inst := i } hv hstep.2 hfix b hb2
        | none =>
          have hred : runObs impl (CanvasEvent.tick env :: rest) c =
              runObs impl rest { c with inst := i } := by
            simp [runObs, ha, hobs]
          rw [hred] at hb
          have hst := tickStep_none_same_st impl c.inst env (by rw [hobs])
          rw [hobs] at hst
          exact ih { c with inst := i } hv (by rw [show i.st = c.inst.st from hst]; exact hflag)
            hfix b hb
      · have hred : runObs impl (CanvasEvent.tick env :: rest) c = runObs impl rest c := by
          simp [runObs, ha]
        rw [hred] at hb
        exact ih c hv hflag hfix b hb
    | setProps p =>
      obtain ⟨hp, hfix2⟩ := hfix
      have hred : runObs impl (CanvasEvent.setProps p :: rest) c =
          runObs impl rest (Canvas.applyProps c p) := by
        simp [runObs]
      rw [hred] at hb
      have hflag2 : (Canvas.applyProps c p).inst.st.render_input_changed = false := by
        rw [applyProps_inst_st, changed_inst_st]
        have hin : c.props.render_input = p.render_input := by rw [hp, hv]
        by_cases hl : c.props.render_loop_state ≠ p.render_loop_state <;>
          by_cases hr2 : c.props.renderer = p.renderer <;>
            simp [hin, hl, hr2, hflag]
      exact ih (Canvas.applyProps c p) (by rw [applyProps_props, hp]) hflag2 hfix2 b hb

/-- With the input-changed flag pending and no further input change in the
event history, the first rendering tick (and only it) observes
`input_changed = true`; every later rendering tick observes `false`. -/
theorem runObs_first_true {R σ ι : Type} [DecidableEq R] [DecidableEq ι]
    (impl : R → RendererImpl σ ι) (v : ι) (evs : List (CanvasEvent R ι)) :
    ∀ c : CanvasComp R σ ι, c.props.render_input = v →
      c.inst.st.render_input_changed = true → inputFixed v evs →
      ∀ n : Nat, ∀ b : Bool, (runObs impl evs c)[n]? = some b → (b = true ↔ n = 0) := by
  induction evs with
  | nil =>
    intro c _ _ _ n b hb
    simp [runObs] at hb
  | cons e rest ih =>
    intro c hv hflag hfix n b hb
    cases e with
    | tick env =>
      by_cases ha : c.inst.alive
      · rcases hobs : tickStep impl c.inst env with ⟨i, obs⟩
        cases obs with
        | some rd =>
          have hred : runObs impl (CanvasEvent.tick env :: rest) c =
              rd.input_changed :: runObs impl rest { c with inst := i } := by
            simp [runObs, ha, hobs]
          rw [hred] at hb
          have hstep := tickStep_some_flag impl c.inst env rd (by rw [hobs])
          rw [hobs] at hstep
          cases n with
          | zero =>
            simp only [List.getElem?_cons_zero, Option.some_inj] at hb
            simp [← hb, hstep.1, hflag]
          | succ m =>
            simp only [List.getElem?_cons_succ] at hb
            have hmem : b ∈ runObs impl rest { c with inst := i } :=
              List.getElem?_mem hb
            have hfalse := runObs_all_false impl v rest { c with inst := i } hv
              hstep.2 hfix b hmem
            simp [hfalse]
        | none =>
          have hred : runObs impl (CanvasEvent.tick env :: rest) c =
              runObs impl rest { c with inst := i } := by
            simp [runObs, ha, hobs]
          rw [hred] at hb
          have hst := tickStep_none_same_st impl c.inst env (by rw [hobs])
          rw [hobs] at hst
          exact ih { c with inst := i } hv
            (by rw [show i.st = c.inst.st from hst]; exact hflag) hfix n b hb
      · have hred : runObs impl (CanvasEvent.tick env :: rest) c = runObs impl rest c := by
          simp [runObs, ha]
        rw [hred] at hb
        exact ih c hv hflag hfix n b hb
    | setProps p =>
      obtain ⟨hp, hfix2⟩ := hfix
      have hred : runObs impl (CanvasEvent.setProps p :: rest) c =
          runObs impl rest (Canvas.applyProps c p) := by
        simp [runObs]
      rw [hred] at hb
      have hflag2 : (Canvas.applyProps c p).inst.st.render_input_changed = true := by
        rw [applyProps_inst_st, changed_inst_st]
        have hin : c.props.render_input = p.render_input := by rw [hp, hv]
        by_cases hl : c.props.render_loop_state ≠ p.render_loop_state <;>
          by_cases hr2 : c.props.renderer = p.renderer <;>
            simp [hin, hl, hr2, hflag]
      exact ih (Canvas.applyProps c p) (by rw [applyProps_props, hp]) hflag2 hfix2 n b hb

/-- Claim C3: after the render input is replaced by an unequal value
(`Canvas::changed` sets the flag), then over any subsequent history of
animation frames and prop updates that does not change the input again,
exactly the first tick that actually renders observes `input_changed = true`
in its `RenderData` snapshot, and every following rendering tick observes
`input_changed = false`. -/
theorem c3_input_change_observed_once {R σ ι : Type} [DecidableEq R] [DecidableEq ι]
    (impl : R → RendererImpl σ ι) (c : CanvasComp R σ ι) (v : ι)
    (hne : v ≠ c.props.render_input)
    (evs : List (CanvasEvent R ι)) (hfix : inputFixed v evs) :
    ∀ n : Nat, ∀ b : Bool,
      (runObs impl evs (Canvas.applyProps c { c.props with render_input := v }))[n]? =
        some b →
      (b = true ↔ n = 0) := by
  apply runObs_first_true impl v evs
  · rw [applyProps_props]
  · rw [applyProps_inst_st, changed_inst_st]
    have h1 : ({ c.props with render_input := v } : CanvasProps R ι).renderer
        = c.props.renderer := rfl
    have h2 : ({ c.props with render_input := v } : CanvasProps R ι).render_input = v := rfl
    have h3 : ({ c.props with render_input := v } : CanvasProps R ι).render_loop_state
        = c.props.render_loop_state := rfl
    have hin : ¬ c.props.render_input = v := fun h => hne h.symm
    simp [h1, h2, h3, hin]
  · exact hfix

/-- Witness for C3 on the mounted counting canvas: replace the input `0` by
`1`, run two more frames; the rendering observations are `[true, false]` —
exactly the first rendering tick sees `input_changed = true`. -/
theorem c3_witness :
    (runObs boolCounterImpl exC3Events
      (Canvas.applyProps exRunningComp { exRunningComp.props with render_input := 1 }) =
      [true, false]) ∧
    (∀ n : Nat, ∀ b : Bool,
      (runObs boolCounterImpl exC3Events
        (Canvas.applyProps exRunningComp
          { exRunningComp.props with render_input := 1 }))[n]? = some b →
      (b = true ↔ n = 0)) :=
  ⟨by decide,
   c3_input_change_observed_once boolCounterImpl exRunningComp 1 (by decide) exC3Events
     (by constructor)⟩

/-- Claim C4: replacing the renderer value (by inequality) discards
`render_state` — the next rendering tick observes `initial_render = true`
and rebuilds the state from `initial_render_state` — while leaving the
render input, the input-changed flag, the loop state and the mouse data
untouched; replacing only the render input (by value inequality) stores the
new input and sets the input-changed flag while leaving `render_state`, the
renderer, the loop state and the mouse data untouched. -/
theorem c4_renderer_swap_vs_input_change {R σ ι : Type} [DecidableEq R] [DecidableEq ι]
    (impl : R → RendererImpl σ ι) (c : CanvasComp R σ ι) (p q : CanvasProps R ι)
    (hpr : p.renderer ≠ c.props.renderer)
    (hpi : p.render_input = c.props.render_input)
    (hpl : p.render_loop_state = c.props.render_loop_state)
    (hqr : q.renderer = c.props.renderer)
    (hqi : q.render_input ≠ c.props.render_input)
    (hql : q.render_loop_state = c.props.render_loop_state) :
    ((Canvas.applyProps c p).inst.st =
      { c.inst.st with render_state := none, renderer := p.renderer } ∧
     ∀ env : TickEnv,
       (Canvas.applyProps c p).inst.st.render_loop_state = RenderLoopState.Rendering →
       (tickStep impl (Canvas.applyProps c p).inst env).2.map RenderData.initial_render =
         some true ∧
       (tickStep impl (Canvas.applyProps c p).inst env).1.st.render_state =
         some ((impl p.renderer).render
           ((impl p.renderer).initial_render_state c.inst.st.render_input
             (mkRenderData (Canvas.applyProps c p).inst.st
               (Canvas.applyProps c p).inst.last_time env))
           c.inst.st.render_input
           (mkRenderData (Canvas.applyProps c p).inst.st
             (Canvas.applyProps c p).inst.last_time env))) ∧
    (Canvas.applyProps c q).inst.st =
      { c.inst.st with render_input := q.render_input, render_input_changed := true } := by
  have hpn : ¬ c.props.renderer = p.renderer := fun h => hpr h.symm
  have hplne : ¬ c.props.render_loop_state ≠ p.render_loop_state := fun h => h hpl.symm
  have hpst : (Canvas.applyProps c p).inst.st =
      { c.inst.st with render_state := none, renderer := p.renderer } := by
    rw [applyProps_inst_st, changed_inst_st]
    simp [hpn, hpi.symm, hplne]
  refine ⟨⟨hpst, fun env hrend => ?_⟩, ?_⟩
  · rw [tickStep_rendering impl _ env hrend]
    constructor
    · simp [mkRenderData, hpst]
    · simp [hpst]
  · rw [applyProps_inst_st, changed_inst_st]
    have hqn : ¬ c.props.render_input = q.render_input := fun h => hqi h.symm
    have hqlne : ¬ c.props.render_loop_state ≠ q.render_loop_state := fun h => h hql.symm
    simp [hqr.symm, hqn, hqlne]

/-- Witness for C4 on the mounted counting canvas (state built at `101`):
swapping the renderer value `true → false` discards the state and the next
tick re-initializes (`initial_render = true`); replacing only the input
`0 → 5` sets the flag and keeps the state. -/
theorem c4_witness :
    ((Canvas.applyProps exRunningComp { exProps with renderer := false }).inst.st =
      { exRunningComp.inst.st with render_state := none, renderer := false }) ∧
    ((tickStep boolCounterImpl
        (Canvas.applyProps exRunningComp { exProps with renderer := false }).inst
        ⟨8, 8, false, 33⟩).2.map RenderData.initial_render = some true) ∧
    ((Canvas.applyProps exRunningComp { exProps with render_input := 5 }).inst.st =
      { exRunningComp.inst.st with render_input := 5, render_input_changed := true }) :=
  ⟨(c4_renderer_swap_vs_input_change boolCounterImpl exRunningComp
      { exProps with renderer := false } { exProps with render_input := 5 }
      (by decide) (by decide) (by decide) (by decide) (by decide) (by decide)).1.1,
   ((c4_renderer_swap_vs_input_change boolCounterImpl exRunningComp
      { exProps with renderer := false } { exProps with render_input := 5 }
      (by decide) (by decide) (by decide) (by decide) (by decide) (by decide)).1.2
      ⟨8, 8, false, 33⟩ (by decide)).1,
   (c4_renderer_swap_vs_input_change boolCounterImpl exRunningComp
      { exProps with renderer := false } { exProps with render_input := 5 }
      (by decide) (by decide) (by decide) (by decide) (by decide) (by decide)).2⟩
